/-
  Verification of the staircase dimensioning core of Projekt-schody
  (src/App.jsx): the functions `calculateStairs` and `checkNorms`.

  The JavaScript source is shallowly embedded over exact rationals for the
  arithmetic pipeline (steps, riser, tread, totalRun) and over the reals for
  the square root and arctangent (stringerLength, angleDeg).  JavaScript
  `Math.round` is floor (x + 1/2); `Number.prototype.toFixed(1)` rounds the
  absolute value with ties away from zero and restores the sign, which is the
  ECMAScript algorithm on exact values.  The prefix `+` applied to the result
  of `toFixed` recovers the rounded numeric value.
-/
import Mathlib

/-- `clamp(v, a, b) = Math.max(a, Math.min(b, v))` from src/App.jsx line 53. -/
def clamp (v a b : ℚ) : ℚ := max a (min b v)

/-- JavaScript `x || d` for an optional numeric `x`: falsy (absent or zero)
falls back to `d`. -/
def jsOr (x : Option ℚ) (d : ℚ) : ℚ :=
  match x with
  | some v => if v = 0 then d else v
  | none => d

/-- JavaScript `Math.round`: floor of `q + 1/2` (ties toward positive
infinity). -/
def jsRound (q : ℚ) : ℤ := ⌊q + 1 / 2⌋

/-- JavaScript `+x.toFixed(1)` on an exact rational: round `|x|` to one
decimal with ties away from zero, then restore the sign. -/
def toFixed1 (q : ℚ) : ℚ :=
  if q < 0 then -((⌊10 * (-q) + 1 / 2⌋ : ℚ) / 10) else (⌊10 * q + 1 / 2⌋ : ℚ) / 10

/-- Same rounding on the reals, for the fields computed with `Math.sqrt` and
`Math.atan2`. -/
noncomputable def toFixed1R (x : ℝ) : ℝ :=
  if x < 0 then -((⌊10 * (-x) + 1 / 2⌋ : ℝ) / 10) else (⌊10 * x + 1 / 2⌋ : ℝ) / 10

/-- Convergence loop A of `calculateStairs` (src/App.jsx line 62):
`while (riser > 210 && steps < 200) { steps += 1; riser = rise / steps }`. -/
def loopA (rise : ℚ) (steps : ℕ) : ℕ :=
  if h : 210 < rise / (steps : ℚ) ∧ steps < 200 then loopA rise (steps + 1) else steps
termination_by 200 - steps
decreasing_by omega

/-- Convergence loop B of `calculateStairs` (src/App.jsx line 63):
`while (riser < 120 && steps > 1) { steps -= 1; riser = rise / steps }`. -/
def loopB (rise : ℚ) (steps : ℕ) : ℕ :=
  if h : rise / (steps : ℚ) < 120 ∧ 1 < steps then loopB rise (steps - 1) else steps
termination_by steps
decreasing_by omega

/-- `const rise = Math.max(10, totalRise)` (line 56). -/
def effRise (totalRise : ℚ) : ℚ := max 10 totalRise

/-- `let targetRiser = desiredRiser || 170; targetRiser = clamp(targetRiser, 120, 210)`
(lines 57 and 58). -/
def targetRiser (desiredRiser : Option ℚ) : ℚ := clamp (jsOr desiredRiser 170) 120 210

/-- `let steps = Math.round(rise / targetRiser); if (steps < 1) steps = 1`
(lines 59 and 60).  The rounded value is never negative here because
`rise ≥ 10` and `targetRiser ≥ 120`, so taking `toNat` before the floor at 1
agrees with the JavaScript integer value. -/
def initSteps (totalRise : ℚ) (desiredRiser : Option ℚ) : ℕ :=
  max 1 (jsRound (effRise totalRise / targetRiser desiredRiser)).toNat

/-- Step count after convergence loop A. -/
def stepsAfterA (totalRise : ℚ) (desiredRiser : Option ℚ) : ℕ :=
  loopA (effRise totalRise) (initSteps totalRise desiredRiser)

/-- Final step count, after both convergence loops (lines 59 to 63). -/
def finalSteps (totalRise : ℚ) (desiredRiser : Option ℚ) : ℕ :=
  loopB (effRise totalRise) (stepsAfterA totalRise desiredRiser)

/-- The pre-rounding riser `riser = rise / steps` after both loops. -/
def riserRaw (totalRise : ℚ) (desiredRiser : Option ℚ) : ℚ :=
  effRise totalRise / (finalSteps totalRise desiredRiser : ℚ)

/-- Lines 64 to 67: `const tFromRule = 600 - 2 * riser; let tread = desiredTread || tFromRule;
tread = clamp(tread, 160, 400); if (stairType === 'spiral') tread = Math.min(tread, 240)`. -/
def treadFinal (totalRise : ℚ) (desiredRiser desiredTread : Option ℚ) (stairType : String) : ℚ :=
  let tFromRule := 600 - 2 * riserRaw totalRise desiredRiser
  let t := clamp (jsOr desiredTread tFromRule) 160 400
  if stairType = "spiral" then min t 240 else t

/-- The landing contribution `(landingDepth && landingDepth > 0) ? landingDepth : 900`
(line 69): a falsy or non-positive landing depth falls back to 900. -/
def landingAdd (landingDepth : Option ℚ) : ℚ :=
  match landingDepth with
  | some d => if 0 < d then d else 900
  | none => 900

/-- Lines 68 and 69: `let totalRun = tread * steps` plus the landing term for
l-shaped and u-shaped stairs. -/
def totalRunRaw (totalRise : ℚ) (desiredRiser desiredTread : Option ℚ)
    (stairType : String) (landingDepth : Option ℚ) : ℚ :=
  let run := treadFinal totalRise desiredRiser desiredTread stairType *
    (finalSteps totalRise desiredRiser : ℚ)
  if stairType = "l" ∨ stairType = "u" then run + landingAdd landingDepth else run

/-- `const stringerLength = Math.sqrt(totalRun*totalRun + rise*rise)` (line 70). -/
noncomputable def stringerRaw (totalRise : ℚ) (desiredRiser desiredTread : Option ℚ)
    (stairType : String) (landingDepth : Option ℚ) : ℝ :=
  Real.sqrt ((totalRunRaw totalRise desiredRiser desiredTread stairType landingDepth : ℝ) ^ 2 +
    (effRise totalRise : ℝ) ^ 2)

/-- JavaScript `Math.atan2(y, x)` on the reals.  The distinctions IEEE signed
zeros would make at `x = 0, y = 0` are not representable in `ℝ`; every call
in the embedded program has `x > 0`, where `atan2` is `arctan (y / x)`. -/
noncomputable def jsAtan2 (y x : ℝ) : ℝ :=
  if 0 < x then Real.arctan (y / x)
  else if x < 0 then
    (if 0 ≤ y then Real.arctan (y / x) + Real.pi else Real.arctan (y / x) - Real.pi)
  else (if 0 < y then Real.pi / 2 else if y < 0 then -(Real.pi / 2) else 0)

/-- `const angleDeg = Math.atan2(rise, totalRun) * 180 / Math.PI` (line 71). -/
noncomputable def angleRaw (totalRise : ℚ) (desiredRiser desiredTread : Option ℚ)
    (stairType : String) (landingDepth : Option ℚ) : ℝ :=
  jsAtan2 (effRise totalRise : ℝ)
    (totalRunRaw totalRise desiredRiser desiredTread stairType landingDepth : ℝ) * 180 / Real.pi

/-- The output record of `calculateStairs` (lines 72 to 74). -/
structure StairGeometry where
  steps : ℕ
  riser : ℚ
  tread : ℚ
  totalRun : ℚ
  stringerLength : ℝ
  angleDeg : ℝ

/-- `calculateStairs` (src/App.jsx lines 55 to 75), with each numeric output
field rounded to one decimal by `toFixed(1)`. -/
noncomputable def calculateStairs (totalRise : ℚ) (desiredRiser desiredTread : Option ℚ)
    (stairType : String) (landingDepth : Option ℚ) : StairGeometry where
  steps := finalSteps totalRise desiredRiser
  riser := toFixed1 (riserRaw totalRise desiredRiser)
  tread := toFixed1 (treadFinal totalRise desiredRiser desiredTread stairType)
  totalRun := toFixed1 (totalRunRaw totalRise desiredRiser desiredTread stairType landingDepth)
  stringerLength :=
    toFixed1R (stringerRaw totalRise desiredRiser desiredTread stairType landingDepth)
  angleDeg := toFixed1R (angleRaw totalRise desiredRiser desiredTread stairType landingDepth)

/-- The six warning messages of `checkNorms` (lines 82 to 87), as templates
with their interpolated values.  `blondelOutOfRange` carries
`Math.round(2*r + t)` and `tooSteep` carries `result.angleDeg`. -/
inductive Warning where
  | riserBelow120 : Warning
  | riserBelow150 : Warning
  | riserAbove200 : Warning
  | treadBelow240 : Warning
  | blondelOutOfRange : ℤ → Warning
  | tooSteep : ℝ → Warning

/-- `checkNorms` (src/App.jsx lines 77 to 89): the six checks evaluated in
their fixed order, each appending its message when it fires. -/
noncomputable def checkNorms (result : StairGeometry) : List Warning :=
  let r := result.riser
  let t := result.tread
  let sum := 2 * r + t
  (if r < 120 then [Warning.riserBelow120] else []) ++
  (if r < 150 then [Warning.riserBelow150] else []) ++
  (if 200 < r then [Warning.riserAbove200] else []) ++
  (if t < 240 then [Warning.treadBelow240] else []) ++
  (if sum < 550 ∨ 700 < sum then [Warning.blondelOutOfRange (jsRound sum)] else []) ++
  (if 45 < result.angleDeg then [Warning.tooSteep result.angleDeg] else [])

/-! ### Specification lemmas for the convergence loops -/

/-- Loop A never decreases the step count. -/
theorem loopA_ge (rise : ℚ) (s : ℕ) : s ≤ loopA rise s := by
  rw [loopA]
  split
  · exact le_trans (Nat.le_succ s) (loopA_ge rise (s + 1))
  · exact le_refl s
termination_by 200 - s

/-- Loop A keeps the step count at or below 200 when it starts there. -/
theorem loopA_le200 (rise : ℚ) (s : ℕ) (h : s ≤ 200) : loopA rise s ≤ 200 := by
  rw [loopA]
  split
  · next hg => exact loopA_le200 rise (s + 1) (by omega)
  · exact h
termination_by 200 - s

/-- Loop A does nothing when the step count already reached 200. -/
theorem loopA_id_of_ge (rise : ℚ) (s : ℕ) (h : 200 ≤ s) : loopA rise s = s := by
  rw [loopA]
  split
  · next hg => omega
  · rfl

/-- Loop A never drives the step count past the larger of its input and 200. -/
theorem loopA_le_max (rise : ℚ) (s : ℕ) : loopA rise s ≤ max s 200 := by
  rcases le_or_lt s 200 with h | h
  · exact le_trans (loopA_le200 rise s h) (le_max_right s 200)
  · rw [loopA_id_of_ge rise s (by omega)]
    exact le_max_left s 200

/-- Post-condition of loop A: its guard fails at the result. -/
theorem loopA_stop (rise : ℚ) (s : ℕ) :
    ¬(210 < rise / (loopA rise s : ℚ) ∧ loopA rise s < 200) := by
  rw [loopA]
  split
  · exact loopA_stop rise (s + 1)
  · next hg => exact hg
termination_by 200 - s

/-- Loop A stops no later than any step count from its start where the riser
is already at most 210. -/
theorem loopA_min (rise : ℚ) (s t : ℕ) (hst : s ≤ t) (ht : rise / (t : ℚ) ≤ 210) :
    loopA rise s ≤ t := by
  rw [loopA]
  split
  · next hg =>
    have hne : s ≠ t := by
      rintro rfl
      exact absurd hg.1 (not_lt.2 ht)
    exact loopA_min rise (s + 1) t (by omega) ht
  · exact hst
termination_by 200 - s

/-- Loop B never increases the step count. -/
theorem loopB_le (rise : ℚ) (s : ℕ) : loopB rise s ≤ s := by
  rw [loopB]
  split
  · next hg => exact le_trans (loopB_le rise (s - 1)) (by omega)
  · exact le_refl s
termination_by s

/-- Loop B keeps the step count at least 1 when it starts there. -/
theorem loopB_ge1 (rise : ℚ) (s : ℕ) (h : 1 ≤ s) : 1 ≤ loopB rise s := by
  rw [loopB]
  split
  · next hg => exact loopB_ge1 rise (s - 1) (by omega)
  · exact h
termination_by s

/-- Post-condition of loop B: its guard fails at the result. -/
theorem loopB_stop (rise : ℚ) (s : ℕ) :
    ¬(rise / (loopB rise s : ℚ) < 120 ∧ 1 < loopB rise s) := by
  rw [loopB]
  split
  · exact loopB_stop rise (s - 1)
  · next hg => exact hg
termination_by s

/-- Loop B does nothing when the riser is already at least 120. -/
theorem loopB_id (rise : ℚ) (s : ℕ) (h : 120 ≤ rise / (s : ℚ)) : loopB rise s = s := by
  rw [loopB]
  split
  · next hg => exact absurd hg.1 (not_lt.2 h)
  · rfl

/-- Loop B stops no earlier than any step count at most its start where the
riser is already at least 120. -/
theorem loopB_min (rise : ℚ) (s t : ℕ) (hts : t ≤ s) (h1 : 1 ≤ t)
    (ht : 120 ≤ rise / (t : ℚ)) : t ≤ loopB rise s := by
  rw [loopB]
  split
  · next hg =>
    have hne : t ≠ s := by
      rintro rfl
      exact absurd hg.1 (not_lt.2 ht)
    exact loopB_min rise (s - 1) t (by omega) h1 ht
  · exact hts
termination_by s

/-- Dividing a positive rise by a larger positive step count gives a smaller
riser. -/
theorem riser_antitone (rise : ℚ) (hr : 0 < rise) (a b : ℕ) (ha : 1 ≤ a) (hab : a ≤ b) :
    rise / (b : ℚ) ≤ rise / (a : ℚ) := by
  have ha' : (0 : ℚ) < (a : ℚ) := by exact_mod_cast Nat.lt_of_lt_of_le Nat.zero_lt_one ha
  have hab' : (a : ℚ) ≤ (b : ℚ) := by exact_mod_cast hab
  gcongr

/-! ### Convergence into the riser band (claim C1) -/

/-- After loop A the riser is at most 210 whenever some step count in
[1, 200] could reach the band at all. -/
theorem loopA_reaches (rise : ℚ) (s0 : ℕ) (hr : 0 < rise) (s1 : ℕ) (h11 : 1 ≤ s1)
    (h1200 : s1 ≤ 200) (hhi : rise / (s1 : ℚ) ≤ 210) :
    rise / (loopA rise s0 : ℚ) ≤ 210 := by
  by_contra hcon
  push_neg at hcon
  have h200 : 200 ≤ loopA rise s0 := by
    rcases not_and_or.mp (loopA_stop rise s0) with h | h
    · exact absurd hcon h
    · exact not_lt.mp h
  have := riser_antitone rise hr s1 (loopA rise s0) h11 (le_trans h1200 h200)
  linarith

/-- Core band lemma: starting both loops from any step count of at least 1,
the final riser lands in [120, 210] whenever some step count in [1, 200]
puts the riser in that band. -/
theorem riser_band (rise : ℚ) (s0 : ℕ) (hr : 0 < rise) (hs0 : 1 ≤ s0)
    (s1 : ℕ) (h11 : 1 ≤ s1) (h1200 : s1 ≤ 200)
    (hlo : 120 ≤ rise / (s1 : ℚ)) (hhi : rise / (s1 : ℚ) ≤ 210) :
    120 ≤ rise / (loopB rise (loopA rise s0) : ℚ) ∧
      rise / (loopB rise (loopA rise s0) : ℚ) ≤ 210 := by
  have ha1 : 1 ≤ loopA rise s0 := le_trans hs0 (loopA_ge rise s0)
  have ha210 : rise / (loopA rise s0 : ℚ) ≤ 210 := loopA_reaches rise s0 hr s1 h11 h1200 hhi
  by_cases hab : 120 ≤ rise / (loopA rise s0 : ℚ)
  · rw [loopB_id rise (loopA rise s0) hab]
    exact ⟨hab, ha210⟩
  · push_neg at hab
    have hs1a : s1 ≤ loopA rise s0 := by
      by_contra hcon
      push_neg at hcon
      have := riser_antitone rise hr (loopA rise s0) s1 ha1 (le_of_lt hcon)
      linarith
    have hs1b : s1 ≤ loopB rise (loopA rise s0) :=
      loopB_min rise (loopA rise s0) s1 hs1a h11 hlo
    have hb1 : 1 ≤ loopB rise (loopA rise s0) := loopB_ge1 rise (loopA rise s0) ha1
    constructor
    · rcases not_and_or.mp (loopB_stop rise (loopA rise s0)) with h | h
      · exact not_lt.mp h
      · have hb_eq : loopB rise (loopA rise s0) = 1 := by omega
        have hs1_eq : s1 = 1 := by omega
        rw [hb_eq]
        rw [hs1_eq] at hlo
        exact_mod_cast hlo
    · exact le_trans (riser_antitone rise hr s1 (loopB rise (loopA rise s0)) h11 hs1b) hhi

/-- C1: for every input with `totalRise ≥ 10`, the geometry produced by
`calculateStairs` has at least one step, its pre-rounding riser equals
`totalRise / steps`, the pre-rounding riser lies in [120, 210] whenever some
step count in [1, 200] makes `totalRise / s` lie in that band, and loop A
never drives the step count past the larger of its starting value and 200. -/
theorem calculateStairs_convergence (totalRise : ℚ) (desiredRiser desiredTread : Option ℚ)
    (stairType : String) (landingDepth : Option ℚ) (h : 10 ≤ totalRise) :
    1 ≤ (calculateStairs totalRise desiredRiser desiredTread stairType landingDepth).steps ∧
    riserRaw totalRise desiredRiser = totalRise /
      ((calculateStairs totalRise desiredRiser desiredTread stairType landingDepth).steps : ℚ) ∧
    ((∃ s : ℕ, 1 ≤ s ∧ s ≤ 200 ∧ 120 ≤ totalRise / (s : ℚ) ∧ totalRise / (s : ℚ) ≤ 210) →
      120 ≤ riserRaw totalRise desiredRiser ∧ riserRaw totalRise desiredRiser ≤ 210) ∧
    stepsAfterA totalRise desiredRiser ≤ max (initSteps totalRise desiredRiser) 200 := by
  have heff : effRise totalRise = totalRise := max_eq_right h
  have hr : 0 < effRise totalRise := lt_of_lt_of_le (by norm_num) (le_max_left 10 totalRise)
  have hs0 : 1 ≤ initSteps totalRise desiredRiser := le_max_left 1 _
  refine ⟨?_, ?_, ?_, loopA_le_max _ _⟩
  · show 1 ≤ finalSteps totalRise desiredRiser
    exact loopB_ge1 _ _ (le_trans hs0 (loopA_ge _ _))
  · show riserRaw totalRise desiredRiser =
      totalRise / ((finalSteps totalRise desiredRiser : ℕ) : ℚ)
    unfold riserRaw
    rw [heff]
  · rintro ⟨s, hs1, hs200, hlo, hhi⟩
    rw [← heff] at hlo hhi
    unfold riserRaw finalSteps stepsAfterA
    exact riser_band (effRise totalRise) (initSteps totalRise desiredRiser) hr hs0 s hs1
      hs200 hlo hhi

/-- Witness for C1 at the concrete scenario-A input. -/
theorem calculateStairs_convergence_witness :
    (10 : ℚ) ≤ 2700 ∧
    (1 ≤ (calculateStairs 2700 (some 170) (some 280) "straight" none).steps ∧
    riserRaw 2700 (some 170) = 2700 /
      ((calculateStairs 2700 (some 170) (some 280) "straight" none).steps : ℚ) ∧
    ((∃ s : ℕ, 1 ≤ s ∧ s ≤ 200 ∧ 120 ≤ (2700 : ℚ) / (s : ℚ) ∧ (2700 : ℚ) / (s : ℚ) ≤ 210) →
      120 ≤ riserRaw 2700 (some 170) ∧ riserRaw 2700 (some 170) ≤ 210) ∧
    stepsAfterA 2700 (some 170) ≤ max (initSteps 2700 (some 170)) 200) :=
  ⟨by norm_num,
    calculateStairs_convergence 2700 (some 170) (some 280) "straight" none (by norm_num)⟩

/-! ### Monotonicity of the step count in the total rise (claim C5) -/

/-- `Math.round` is monotone. -/
theorem jsRound_mono (q r : ℚ) (h : q ≤ r) : jsRound q ≤ jsRound r :=
  Int.floor_le_floor (by linarith)

/-- The effective rise is positive and monotone in the total rise. -/
theorem effRise_pos (totalRise : ℚ) : 0 < effRise totalRise :=
  lt_of_lt_of_le (by norm_num) (le_max_left 10 totalRise)

/-- The target riser is at least 120. -/
theorem targetRiser_ge (desiredRiser : Option ℚ) : 120 ≤ targetRiser desiredRiser :=
  le_max_left 120 _

/-- The initial step count is monotone in the total rise. -/
theorem initSteps_mono (t1 t2 : ℚ) (dR : Option ℚ) (h : t1 ≤ t2) :
    initSteps t1 dR ≤ initSteps t2 dR := by
  unfold initSteps
  have htr : 0 < targetRiser dR := lt_of_lt_of_le (by norm_num) (targetRiser_ge dR)
  have heff : effRise t1 ≤ effRise t2 := max_le_max (le_refl 10) h
  have hdiv : effRise t1 / targetRiser dR ≤ effRise t2 / targetRiser dR := by gcongr
  have := jsRound_mono _ _ hdiv
  omega

/-- Loop A is jointly monotone in the rise and the starting step count. -/
theorem loopA_mono (rise1 rise2 : ℚ) (s1 s2 : ℕ) (hr1 : 0 < rise1) (hr : rise1 ≤ rise2)
    (h1 : 1 ≤ s1) (hs : s1 ≤ s2) : loopA rise1 s1 ≤ loopA rise2 s2 := by
  have ha2 : s2 ≤ loopA rise2 s2 := loopA_ge rise2 s2
  have ha2pos : (0 : ℚ) < (loopA rise2 s2 : ℚ) := by
    have : (1 : ℕ) ≤ loopA rise2 s2 := le_trans (le_trans h1 hs) ha2
    exact_mod_cast this
  rcases not_and_or.mp (loopA_stop rise2 s2) with h | h
  · push_neg at h
    have h1' : rise1 / (loopA rise2 s2 : ℚ) ≤ 210 := le_trans (by gcongr) h
    exact loopA_min rise1 s1 (loopA rise2 s2) (le_trans hs ha2) h1'
  · push_neg at h
    rcases le_or_lt s1 200 with hc | hc
    · exact le_trans (loopA_le200 rise1 s1 hc) h
    · rw [loopA_id_of_ge rise1 s1 (by omega)]
      exact le_trans hs ha2
/-- Loop B is jointly monotone in the rise and the starting step count. -/
theorem loopB_mono (rise1 rise2 : ℚ) (s1 s2 : ℕ) (hr1 : 0 < rise1) (hr : rise1 ≤ rise2)
    (h1 : 1 ≤ s1) (hs : s1 ≤ s2) : loopB rise1 s1 ≤ loopB rise2 s2 := by
  have hb1 : 1 ≤ loopB rise1 s1 := loopB_ge1 rise1 s1 h1
  rcases not_and_or.mp (loopB_stop rise1 s1) with h | h
  · push_neg at h
    have hge : 120 ≤ rise2 / (loopB rise1 s1 : ℚ) := by
      have hb1' : (0 : ℚ) < (loopB rise1 s1 : ℚ) := by exact_mod_cast hb1
      exact le_trans h (by gcongr)
    exact loopB_min rise2 s2 (loopB rise1 s1) (le_trans (loopB_le rise1 s1) hs) hb1 hge
  · push_neg at h
    exact le_trans h (loopB_ge1 rise2 s2 (le_trans h1 hs))

/-- C5: the `steps` field of `calculateStairs` is monotonically non-decreasing
in `totalRise` when all other arguments are held fixed. -/
theorem calculateStairs_steps_mono (t1 t2 : ℚ) (dR dT : Option ℚ) (ty : String)
    (ld : Option ℚ) (h : t1 ≤ t2) :
    (calculateStairs t1 dR dT ty ld).steps ≤ (calculateStairs t2 dR dT ty ld).steps := by
  show finalSteps t1 dR ≤ finalSteps t2 dR
  unfold finalSteps stepsAfterA
  have heff : effRise t1 ≤ effRise t2 := max_le_max (le_refl 10) h
  have hs0 : 1 ≤ initSteps t1 dR := le_max_left 1 _
  have hA : loopA (effRise t1) (initSteps t1 dR) ≤ loopA (effRise t2) (initSteps t2 dR) :=
    loopA_mono _ _ _ _ (effRise_pos t1) heff hs0 (initSteps_mono t1 t2 dR h)
  exact loopB_mono _ _ _ _ (effRise_pos t1) heff
    (le_trans hs0 (loopA_ge (effRise t1) (initSteps t1 dR))) hA

/-- Witness for C5 at a concrete pair of rises. -/
theorem calculateStairs_steps_mono_witness :
    (2700 : ℚ) ≤ 5400 ∧
    (calculateStairs 2700 (some 170) (some 280) "straight" none).steps ≤
      (calculateStairs 5400 (some 170) (some 280) "straight" none).steps :=
  ⟨by norm_num, calculateStairs_steps_mono 2700 5400 (some 170) (some 280) "straight" none
    (by norm_num)⟩

/-! ### The norm checker (claims C4, C9, C10) -/

/-- C4: on a geometry with riser 100, tread 200 and angle 50 degrees,
`checkNorms` returns exactly the messages of checks 1, 2, 4, 5 and 6 in that
order; check 3 does not fire, and check 5 fires with rounded sum 400. -/
theorem checkNorms_at_100_200_50 (n : ℕ) (run : ℚ) (sl : ℝ) :
    checkNorms ⟨n, 100, 200, run, sl, 50⟩ =
      [Warning.riserBelow120, Warning.riserBelow150, Warning.treadBelow240,
       Warning.blondelOutOfRange 400, Warning.tooSteep 50] := by
  norm_num [checkNorms, jsRound]

/-- Appending an optional head to a sublist of the tail stays a sublist. -/
theorem sublist_if_cons (c : Prop) [Decidable c] (a : Warning) (l1 l2 : List Warning)
    (h : List.Sublist l1 l2) :
    List.Sublist ((if c then [a] else []) ++ l1) (a :: l2) := by
  split
  · exact List.Sublist.cons₂ a h
  · exact List.Sublist.cons a h

/-- C9: for every geometry record, `checkNorms` returns a duplicate-free
subsequence of the six fixed messages taken in check order, the fifth and
sixth instantiated with the record's own rounded Blondel sum and angle. -/
theorem checkNorms_sublist (g : StairGeometry) :
    List.Sublist (checkNorms g)
      [Warning.riserBelow120, Warning.riserBelow150, Warning.riserAbove200,
       Warning.treadBelow240, Warning.blondelOutOfRange (jsRound (2 * g.riser + g.tread)),
       Warning.tooSteep g.angleDeg] ∧
    (checkNorms g).Nodup := by
  have hsub : List.Sublist (checkNorms g)
      [Warning.riserBelow120, Warning.riserBelow150, Warning.riserAbove200,
       Warning.treadBelow240, Warning.blondelOutOfRange (jsRound (2 * g.riser + g.tread)),
       Warning.tooSteep g.angleDeg] := by
    simp only [checkNorms, List.append_assoc]
    apply sublist_if_cons
    apply sublist_if_cons
    apply sublist_if_cons
    apply sublist_if_cons
    apply sublist_if_cons
    split
    · exact List.Sublist.refl _
    · exact List.nil_sublist _
  refine ⟨hsub, List.Nodup.sublist hsub ?_⟩
  simp

/-- C10: `checkNorms` depends only on the riser, tread and angle fields. -/
theorem checkNorms_only_riser_tread_angle (g1 g2 : StairGeometry)
    (hr : g1.riser = g2.riser) (ht : g1.tread = g2.tread)
    (ha : g1.angleDeg = g2.angleDeg) : checkNorms g1 = checkNorms g2 := by
  unfold checkNorms
  rw [hr, ht, ha]

/-- Witness for C10 at two records differing in steps, totalRun and
stringerLength. -/
theorem checkNorms_only_riser_tread_angle_witness :
    checkNorms ⟨16, 100, 200, 4480, 5230, 50⟩ = checkNorms ⟨99, 100, 200, 7, 8, 50⟩ :=
  checkNorms_only_riser_tread_angle ⟨16, 100, 200, 4480, 5230, 50⟩ ⟨99, 100, 200, 7, 8, 50⟩
    rfl rfl rfl

/-! ### Concrete evaluation of the scenario-A pipeline -/

/-- The effective rise of scenario A. -/
theorem effRise_2700 : effRise 2700 = (2700 : ℚ) := by norm_num [effRise]

/-- The initial step count of scenario A: round(2700 / 170) = 16. -/
theorem initSteps_2700 : initSteps 2700 (some 170) = 16 := by
  unfold initSteps effRise targetRiser jsOr jsRound clamp
  norm_num
  decide

/-- Loop A leaves scenario A unchanged: 2700 / 16 = 168.75 is at most 210. -/
theorem stepsAfterA_2700 : stepsAfterA 2700 (some 170) = 16 := by
  unfold stepsAfterA
  rw [effRise_2700, initSteps_2700, loopA]
  norm_num

/-- Loop B leaves scenario A unchanged: 168.75 is at least 120. -/
theorem finalSteps_2700 : finalSteps 2700 (some 170) = 16 := by
  unfold finalSteps
  rw [effRise_2700, stepsAfterA_2700, loopB]
  norm_num

/-- The pre-rounding scenario-A riser is 2700 / 16 = 168.75. -/
theorem riserRaw_2700 : riserRaw 2700 (some 170) = 675 / 4 := by
  unfold riserRaw
  rw [effRise_2700, finalSteps_2700]
  norm_num

/-- The scenario-A tread: the desired 280 passes the clamp for every
non-spiral stair type. -/
theorem treadFinal_2700 (ty : String) (hty : ty ≠ "spiral") :
    treadFinal 2700 (some 170) (some 280) ty = 280 := by
  unfold treadFinal jsOr clamp
  rw [if_neg hty]
  norm_num

/-- The scenario-A total run: 280 × 16 = 4480 for a straight stair. -/
theorem totalRunRaw_2700 :
    totalRunRaw 2700 (some 170) (some 280) "straight" none = 4480 := by
  simp only [totalRunRaw]
  rw [if_neg (by decide : ¬("straight" = "l" ∨ "straight" = "u"))]
  rw [treadFinal_2700 "straight" (by decide), finalSteps_2700]
  norm_num

/-- The scenario-B total run: 4480 + 900 = 5380 for an l-shaped stair with a
900 landing. -/
theorem totalRunRaw_2700_l :
    totalRunRaw 2700 (some 170) (some 280) "l" (some 900) = 5380 := by
  simp only [totalRunRaw, true_or, if_true]
  rw [treadFinal_2700 "l" (by decide), finalSteps_2700]
  norm_num [landingAdd]

/-! ### Rounding lemmas and claims C6, C7, C8 -/

/-- `toFixed(1)` is monotone on exact rationals. -/
theorem toFixed1_mono (q r : ℚ) (h : q ≤ r) : toFixed1 q ≤ toFixed1 r := by
  unfold toFixed1
  split_ifs with h1 h2 h2
  · have : (⌊10 * (-r) + 1 / 2⌋ : ℤ) ≤ ⌊10 * (-q) + 1 / 2⌋ :=
      Int.floor_le_floor (by linarith)
    have hq : ((⌊10 * (-r) + 1 / 2⌋ : ℤ) : ℚ) ≤ ((⌊10 * (-q) + 1 / 2⌋ : ℤ) : ℚ) := by
      exact_mod_cast this
    linarith
  · have hl : (0 : ℤ) ≤ ⌊10 * (-q) + 1 / 2⌋ := Int.floor_nonneg.mpr (by linarith)
    have hr : (0 : ℤ) ≤ ⌊10 * r + 1 / 2⌋ := Int.floor_nonneg.mpr (by push_neg at h2; linarith)
    have hl' : (0 : ℚ) ≤ ((⌊10 * (-q) + 1 / 2⌋ : ℤ) : ℚ) := by exact_mod_cast hl
    have hr' : (0 : ℚ) ≤ ((⌊10 * r + 1 / 2⌋ : ℤ) : ℚ) := by exact_mod_cast hr
    linarith
  · linarith
  · have : (⌊10 * q + 1 / 2⌋ : ℤ) ≤ ⌊10 * r + 1 / 2⌋ := Int.floor_le_floor (by linarith)
    have hq : ((⌊10 * q + 1 / 2⌋ : ℤ) : ℚ) ≤ ((⌊10 * r + 1 / 2⌋ : ℤ) : ℚ) := by
      exact_mod_cast this
    linarith

/-- Rounding a one-decimal value is the identity; in particular at 240. -/
theorem toFixed1_240 : toFixed1 240 = 240 := by
  unfold toFixed1
  norm_num

/-- C6: for spiral stairs the output tread never exceeds 240, regardless of
the desired tread. -/
theorem calculateStairs_spiral_tread_le (totalRise : ℚ) (dR dT ld : Option ℚ) :
    (calculateStairs totalRise dR dT "spiral" ld).tread ≤ 240 := by
  show toFixed1 (treadFinal totalRise dR dT "spiral") ≤ 240
  have hle : treadFinal totalRise dR dT "spiral" ≤ 240 := by
    simp only [treadFinal, if_pos rfl]
    exact min_le_right _ 240
  calc toFixed1 (treadFinal totalRise dR dT "spiral") ≤ toFixed1 240 :=
        toFixed1_mono _ _ hle
    _ = 240 := toFixed1_240

/-- C7: for l-shaped and u-shaped stairs the pre-rounding total run is
`tread × steps` plus the landing depth when that is a positive number and
plus 900 otherwise; in particular scenario B
`calculateStairs(2700, 170, 280, l, 900)` produces total run 5380 with the
scenario-A steps, riser and tread. -/
theorem totalRun_landing (totalRise : ℚ) (dR dT ld : Option ℚ) (ty : String)
    (h : ty = "l" ∨ ty = "u") :
    totalRunRaw totalRise dR dT ty ld =
      treadFinal totalRise dR dT ty * (finalSteps totalRise dR : ℚ) +
        (match ld with
         | some d => if 0 < d then d else 900
         | none => 900) ∧
    (calculateStairs 2700 (some 170) (some 280) "l" (some 900)).totalRun = 5380 ∧
    (calculateStairs 2700 (some 170) (some 280) "l" (some 900)).steps = 16 ∧
    (calculateStairs 2700 (some 170) (some 280) "l" (some 900)).riser = 168.8 ∧
    (calculateStairs 2700 (some 170) (some 280) "l" (some 900)).tread = 280 := by
  refine ⟨?_, ?_, ?_, ?_, ?_⟩
  · simp only [totalRunRaw, landingAdd, if_pos h]
  · show toFixed1 (totalRunRaw 2700 (some 170) (some 280) "l" (some 900)) = 5380
    rw [totalRunRaw_2700_l]
    unfold toFixed1
    norm_num
  · exact finalSteps_2700
  · show toFixed1 (riserRaw 2700 (some 170)) = 168.8
    rw [riserRaw_2700]
    unfold toFixed1
    norm_num
  · show toFixed1 (treadFinal 2700 (some 170) (some 280) "l") = 280
    rw [treadFinal_2700 "l" (by decide)]
    unfold toFixed1
    norm_num

/-- Witness for C7 at the u-shaped type with an absent landing depth. -/
theorem totalRun_landing_witness :
    ("u" = "l" ∨ "u" = "u") ∧
    (totalRunRaw 2700 (some 170) (some 280) "u" none =
      treadFinal 2700 (some 170) (some 280) "u" * (finalSteps 2700 (some 170) : ℚ) +
        (match (none : Option ℚ) with
         | some d => if 0 < d then d else 900
         | none => 900) ∧
    (calculateStairs 2700 (some 170) (some 280) "l" (some 900)).totalRun = 5380 ∧
    (calculateStairs 2700 (some 170) (some 280) "l" (some 900)).steps = 16 ∧
    (calculateStairs 2700 (some 170) (some 280) "l" (some 900)).riser = 168.8 ∧
    (calculateStairs 2700 (some 170) (some 280) "l" (some 900)).tread = 280) :=
  ⟨Or.inr rfl, totalRun_landing 2700 (some 170) (some 280) none "u" (Or.inr rfl)⟩

/-- C8: a desired riser of 0 is treated exactly like an absent desired riser,
and the target riser is then the default 170, clamped to [120, 210]. -/
theorem calculateStairs_zero_desiredRiser (totalRise : ℚ) (dT : Option ℚ) (ty : String)
    (ld : Option ℚ) :
    calculateStairs totalRise (some 0) dT ty ld = calculateStairs totalRise none dT ty ld ∧
    targetRiser (some 0) = clamp 170 120 210 ∧ targetRiser none = clamp 170 120 210 := by
  have key : ∀ x : Option ℚ, x = some 0 ∨ x = none → targetRiser x = clamp 170 120 210 := by
    rintro x (rfl | rfl) <;> simp [targetRiser, jsOr]
  have keyeq : targetRiser (some 0) = targetRiser none := by
    rw [key (some 0) (Or.inl rfl), key none (Or.inr rfl)]
  refine ⟨?_, key (some 0) (Or.inl rfl), key none (Or.inr rfl)⟩
  have hsteps : finalSteps totalRise (some 0) = finalSteps totalRise none := by
    unfold finalSteps stepsAfterA initSteps
    rw [keyeq]
  have hriser : riserRaw totalRise (some 0) = riserRaw totalRise none := by
    unfold riserRaw
    rw [hsteps]
  have htread : treadFinal totalRise (some 0) dT ty = treadFinal totalRise none dT ty := by
    unfold treadFinal
    rw [hriser]
  have hrun : totalRunRaw totalRise (some 0) dT ty ld = totalRunRaw totalRise none dT ty ld := by
    unfold totalRunRaw
    rw [htread, hsteps]
  unfold calculateStairs stringerRaw angleRaw
  rw [hsteps, hriser, htread, hrun]

/-! ### Bounding the scenario-A incline angle (claim C3) -/

/-- Upper Taylor bound for the arctangent on the nonnegative reals, from the
sign of the derivative of the difference. -/
theorem arctan_poly_upper (x : ℝ) (hx : 0 ≤ x) :
    Real.arctan x ≤ x - x ^ 3 / 3 + x ^ 5 / 5 - x ^ 7 / 7 + x ^ 9 / 9 := by
  have key : ∀ y : ℝ, HasDerivAt
      (fun t : ℝ => t - t ^ 3 / 3 + t ^ 5 / 5 - t ^ 7 / 7 + t ^ 9 / 9 - Real.arctan t)
      (1 - y ^ 2 + y ^ 4 - y ^ 6 + y ^ 8 - 1 / (1 + y ^ 2)) y := by
    intro y
    have h1 : HasDerivAt (fun t : ℝ => t) 1 y := hasDerivAt_id y
    have h3 := (hasDerivAt_pow 3 y).div_const 3
    have h5 := (hasDerivAt_pow 5 y).div_const 5
    have h7 := (hasDerivAt_pow 7 y).div_const 7
    have h9 := (hasDerivAt_pow 9 y).div_const 9
    have hpoly := (((h1.sub h3).add h5).sub h7).add h9
    have harc := Real.hasDerivAt_arctan y
    have hall := hpoly.sub harc
    convert hall using 1
    push_cast
    ring_nf
  have hcont : Continuous
      (fun t : ℝ => t - t ^ 3 / 3 + t ^ 5 / 5 - t ^ 7 / 7 + t ^ 9 / 9 - Real.arctan t) :=
    ((((continuous_id.sub ((continuous_pow 3).div_const 3)).add
      ((continuous_pow 5).div_const 5)).sub ((continuous_pow 7).div_const 7)).add
      ((continuous_pow 9).div_const 9)).sub Real.continuous_arctan
  have hmono : MonotoneOn
      (fun t : ℝ => t - t ^ 3 / 3 + t ^ 5 / 5 - t ^ 7 / 7 + t ^ 9 / 9 - Real.arctan t)
      (Set.Ici (0 : ℝ)) := by
    apply monotoneOn_of_deriv_nonneg (convex_Ici 0) hcont.continuousOn
    · intro y hy
      exact (key y).differentiableAt.differentiableWithinAt
    · intro y hy
      rw [(key y).deriv]
      have h2 : (0 : ℝ) < 1 + y ^ 2 := by positivity
      rw [sub_nonneg, div_le_iff₀ h2]
      nlinarith [pow_nonneg (sq_nonneg y) 5, sq_nonneg y]
  have h := hmono (Set.mem_Ici.mpr le_rfl) (Set.mem_Ici.mpr hx) hx
  simp only [Real.arctan_zero] at h
  norm_num at h
  linarith

/-- Lower Taylor bound for the arctangent on the nonnegative reals. -/
theorem arctan_poly_lower (x : ℝ) (hx : 0 ≤ x) :
    x - x ^ 3 / 3 + x ^ 5 / 5 - x ^ 7 / 7 + x ^ 9 / 9 - x ^ 11 / 11 ≤ Real.arctan x := by
  have key : ∀ y : ℝ, HasDerivAt
      (fun t : ℝ => Real.arctan t -
        (t - t ^ 3 / 3 + t ^ 5 / 5 - t ^ 7 / 7 + t ^ 9 / 9 - t ^ 11 / 11))
      (1 / (1 + y ^ 2) - (1 - y ^ 2 + y ^ 4 - y ^ 6 + y ^ 8 - y ^ 10)) y := by
    intro y
    have h1 : HasDerivAt (fun t : ℝ => t) 1 y := hasDerivAt_id y
    have h3 := (hasDerivAt_pow 3 y).div_const 3
    have h5 := (hasDerivAt_pow 5 y).div_const 5
    have h7 := (hasDerivAt_pow 7 y).div_const 7
    have h9 := (hasDerivAt_pow 9 y).div_const 9
    have h11 := (hasDerivAt_pow 11 y).div_const 11
    have hpoly := ((((h1.sub h3).add h5).sub h7).add h9).sub h11
    have harc := Real.hasDerivAt_arctan y
    have hall := harc.sub hpoly
    convert hall using 1
    push_cast
    ring_nf
  have hcont : Continuous
      (fun t : ℝ => Real.arctan t -
        (t - t ^ 3 / 3 + t ^ 5 / 5 - t ^ 7 / 7 + t ^ 9 / 9 - t ^ 11 / 11)) :=
    Real.continuous_arctan.sub (((((continuous_id.sub
      ((continuous_pow 3).div_const 3)).add ((continuous_pow 5).div_const 5)).sub
      ((continuous_pow 7).div_const 7)).add ((continuous_pow 9).div_const 9)).sub
      ((continuous_pow 11).div_const 11))
  have hmono : MonotoneOn
      (fun t : ℝ => Real.arctan t -
        (t - t ^ 3 / 3 + t ^ 5 / 5 - t ^ 7 / 7 + t ^ 9 / 9 - t ^ 11 / 11))
      (Set.Ici (0 : ℝ)) := by
    apply monotoneOn_of_deriv_nonneg (convex_Ici 0) hcont.continuousOn
    · intro y hy
      exact (key y).differentiableAt.differentiableWithinAt
    · intro y hy
      rw [(key y).deriv]
      have h2 : (0 : ℝ) < 1 + y ^ 2 := by positivity
      rw [sub_nonneg, le_div_iff₀ h2]
      nlinarith [pow_nonneg (sq_nonneg y) 6, sq_nonneg y]
  have h := hmono (Set.mem_Ici.mpr le_rfl) (Set.mem_Ici.mpr hx) hx
  simp only [Real.arctan_zero] at h
  norm_num at h
  linarith

/-- The pre-rounding scenario-A incline angle lies between 31.05 and 31.15
degrees, so it rounds to 31.1. -/
theorem angleRaw_2700_bounds :
    31.05 ≤ angleRaw 2700 (some 170) (some 280) "straight" none ∧
    angleRaw 2700 (some 170) (some 280) "straight" none < 31.15 := by
  have hrun := totalRunRaw_2700
  unfold angleRaw
  rw [hrun, effRise_2700]
  rw [jsAtan2]
  rw [if_pos (by norm_num : (0 : ℝ) < ((4480 : ℚ) : ℝ))]
  have harg : ((2700 : ℚ) : ℝ) / ((4480 : ℚ) : ℝ) = 135 / 224 := by norm_num
  rw [harg]
  have hup : Real.arctan (135 / 224) ≤ 0.5427 := by
    have h := arctan_poly_upper (135 / 224) (by norm_num)
    have h2 : (135 / 224 : ℝ) - (135 / 224) ^ 3 / 3 + (135 / 224) ^ 5 / 5 -
        (135 / 224) ^ 7 / 7 + (135 / 224) ^ 9 / 9 ≤ 0.5427 := by norm_num
    linarith
  have hlo : (0.5422 : ℝ) ≤ Real.arctan (135 / 224) := by
    have h := arctan_poly_lower (135 / 224) (by norm_num)
    have h2 : (0.5422 : ℝ) ≤ (135 / 224 : ℝ) - (135 / 224) ^ 3 / 3 + (135 / 224) ^ 5 / 5 -
        (135 / 224) ^ 7 / 7 + (135 / 224) ^ 9 / 9 - (135 / 224) ^ 11 / 11 := by norm_num
    linarith
  have hpi_lo := Real.pi_gt_d6
  have hpi_hi := Real.pi_lt_d6
  have hpi_pos := Real.pi_pos
  constructor
  · have hdiv : (0.5422 : ℝ) * 180 / 3.141593 ≤ Real.arctan (135 / 224) * 180 / Real.pi := by
      apply div_le_div₀ (by positivity) (by nlinarith) hpi_pos (by linarith)
    have hnum : (31.05 : ℝ) ≤ 0.5422 * 180 / 3.141593 := by norm_num
    linarith
  · have hdiv : Real.arctan (135 / 224) * 180 / Real.pi ≤ (0.5427 : ℝ) * 180 / 3.141592 := by
      apply div_le_div₀ (by norm_num) (by nlinarith) (by norm_num) (by linarith)
    have hnum : (0.5427 : ℝ) * 180 / 3.141592 < 31.15 := by norm_num
    linarith

/-- The rounded scenario-A angle field is exactly 31.1 degrees. -/
theorem angleDeg_2700 :
    (calculateStairs 2700 (some 170) (some 280) "straight" none).angleDeg = 31.1 := by
  show toFixed1R (angleRaw 2700 (some 170) (some 280) "straight" none) = 31.1
  obtain ⟨hlo, hhi⟩ := angleRaw_2700_bounds
  unfold toFixed1R
  rw [if_neg (by linarith)]
  have hfl : ⌊10 * angleRaw 2700 (some 170) (some 280) "straight" none + 1 / 2⌋ = (311 : ℤ) := by
    rw [Int.floor_eq_iff]
    constructor
    · push_cast
      linarith
    · push_cast
      linarith
  rw [hfl]
  norm_num

/-- C3: scenario A, `calculateStairs(2700, 170, 280, straight, undefined)`
returns 16 steps, riser 168.8, tread 280, total run 4480 and incline angle
31.1 degrees, and `checkNorms` accepts the result without warnings. -/
theorem calculateStairs_scenarioA :
    (calculateStairs 2700 (some 170) (some 280) "straight" none).steps = 16 ∧
    (calculateStairs 2700 (some 170) (some 280) "straight" none).riser = 168.8 ∧
    (calculateStairs 2700 (some 170) (some 280) "straight" none).tread = 280 ∧
    (calculateStairs 2700 (some 170) (some 280) "straight" none).totalRun = 4480 ∧
    (calculateStairs 2700 (some 170) (some 280) "straight" none).angleDeg = 31.1 ∧
    checkNorms (calculateStairs 2700 (some 170) (some 280) "straight" none) = [] := by
  have hriser : (calculateStairs 2700 (some 170) (some 280) "straight" none).riser = 168.8 := by
    show toFixed1 (riserRaw 2700 (some 170)) = 168.8
    rw [riserRaw_2700]
    unfold toFixed1
    norm_num
  have htread : (calculateStairs 2700 (some 170) (some 280) "straight" none).tread = 280 := by
    show toFixed1 (treadFinal 2700 (some 170) (some 280) "straight") = 280
    rw [treadFinal_2700 "straight" (by decide)]
    unfold toFixed1
    norm_num
  have hrun : (calculateStairs 2700 (some 170) (some 280) "straight" none).totalRun = 4480 := by
    show toFixed1 (totalRunRaw 2700 (some 170) (some 280) "straight" none) = 4480
    rw [totalRunRaw_2700]
    unfold toFixed1
    norm_num
  refine ⟨finalSteps_2700, hriser, htread, hrun, angleDeg_2700, ?_⟩
  simp only [checkNorms, hriser, htread, angleDeg_2700]
  norm_num

/-! ### The hypotenuse relation (claim C2) -/

/-- Rounding to one decimal moves a real by at most half a unit in the last
place. -/
theorem toFixed1R_dist (x : ℝ) : |toFixed1R x - x| ≤ 1 / 20 := by
  unfold toFixed1R
  split_ifs with h
  · have h1 : ((⌊10 * (-x) + 1 / 2⌋ : ℤ) : ℝ) ≤ 10 * (-x) + 1 / 2 := Int.floor_le _
    have h2 : 10 * (-x) + 1 / 2 < (⌊10 * (-x) + 1 / 2⌋ : ℤ) + 1 := Int.lt_floor_add_one _
    rw [abs_le]
    constructor <;> push_cast at h1 h2 ⊢ <;> linarith
  · have h1 : ((⌊10 * x + 1 / 2⌋ : ℤ) : ℝ) ≤ 10 * x + 1 / 2 := Int.floor_le _
    have h2 : 10 * x + 1 / 2 < (⌊10 * x + 1 / 2⌋ : ℤ) + 1 := Int.lt_floor_add_one _
    rw [abs_le]
    constructor <;> push_cast at h1 h2 ⊢ <;> linarith

/-- Rounding to one decimal moves a rational by at most half a unit in the
last place. -/
theorem toFixed1_dist (q : ℚ) : |toFixed1 q - q| ≤ 1 / 20 := by
  unfold toFixed1
  split_ifs with h
  · have h1 : ((⌊10 * (-q) + 1 / 2⌋ : ℤ) : ℚ) ≤ 10 * (-q) + 1 / 2 := Int.floor_le _
    have h2 : 10 * (-q) + 1 / 2 < (⌊10 * (-q) + 1 / 2⌋ : ℤ) + 1 := Int.lt_floor_add_one _
    rw [abs_le]
    constructor <;> push_cast at h1 h2 ⊢ <;> linarith
  · have h1 : ((⌊10 * q + 1 / 2⌋ : ℤ) : ℚ) ≤ 10 * q + 1 / 2 := Int.floor_le _
    have h2 : 10 * q + 1 / 2 < (⌊10 * q + 1 / 2⌋ : ℤ) + 1 := Int.lt_floor_add_one _
    rw [abs_le]
    constructor <;> push_cast at h1 h2 ⊢ <;> linarith

/-- The effective rise saturates at 10 for the counterexample input. -/
theorem effRise_neg1000 : effRise (-1000) = (10 : ℚ) := by norm_num [effRise]

/-- The counterexample input produces a single step. -/
theorem finalSteps_neg1000 : finalSteps (-1000) none = 1 := by
  have h0 : initSteps (-1000) none = 1 := by
    unfold initSteps effRise targetRiser jsOr jsRound clamp
    norm_num
  have hA : stepsAfterA (-1000) none = 1 := by
    unfold stepsAfterA
    rw [effRise_neg1000, h0, loopA]
    norm_num
  unfold finalSteps
  rw [effRise_neg1000, hA, loopB]
  norm_num

/-- The counterexample tread: the rule tread 580 is clamped down to 400. -/
theorem treadFinal_neg1000 : treadFinal (-1000) none none "straight" = 400 := by
  have hriser : riserRaw (-1000) none = 10 := by
    unfold riserRaw
    rw [effRise_neg1000, finalSteps_neg1000]
    norm_num
  unfold treadFinal jsOr clamp
  rw [if_neg (by decide : ¬("straight" = "spiral"))]
  rw [hriser]
  norm_num

/-- The counterexample total run is 400. -/
theorem totalRunRaw_neg1000 : totalRunRaw (-1000) none none "straight" none = 400 := by
  simp only [totalRunRaw]
  rw [if_neg (by decide : ¬("straight" = "l" ∨ "straight" = "u"))]
  rw [treadFinal_neg1000, finalSteps_neg1000]
  norm_num

/-- The counterexample raw stringer length is the square root of
400² + 10² = 160100, because the code uses the clamped rise 10 and not the
caller-supplied total rise. -/
theorem stringerRaw_neg1000 :
    stringerRaw (-1000) none none "straight" none = Real.sqrt 160100 := by
  unfold stringerRaw
  rw [totalRunRaw_neg1000, effRise_neg1000]
  norm_num

/-- C2 as stated is false: at `totalRise = -1000` (with every optional input
absent and a straight type) no reals within the one-decimal rounding
tolerance of the produced `stringerLength` and `totalRun` can satisfy the
hypotenuse relation over the caller-supplied `totalRise`, because the code
computes the stringer from the clamped rise `max(10, totalRise)`. -/
theorem stringer_hypotenuse_counterexample :
    ¬(∃ s t : ℝ,
      |s - (calculateStairs (-1000) none none "straight" none).stringerLength| ≤ 1 / 20 ∧
      |t - ((calculateStairs (-1000) none none "straight" none).totalRun : ℝ)| ≤ 1 / 20 ∧
      s ^ 2 = t ^ 2 + ((-1000 : ℚ) : ℝ) ^ 2) := by
  rintro ⟨s, t, hs, ht, heq⟩
  have hsf : (calculateStairs (-1000) none none "straight" none).stringerLength =
      toFixed1R (Real.sqrt 160100) := by
    show toFixed1R (stringerRaw (-1000) none none "straight" none) = _
    rw [stringerRaw_neg1000]
  have hsqrt_nonneg : (0 : ℝ) ≤ Real.sqrt 160100 := Real.sqrt_nonneg _
  have hsqrt_le : Real.sqrt 160100 ≤ 400.2 := by
    have h1 : Real.sqrt 160100 ≤ Real.sqrt (400.2 ^ 2) := by
      apply Real.sqrt_le_sqrt
      norm_num
    rwa [Real.sqrt_sq (by norm_num : (0 : ℝ) ≤ 400.2)] at h1
  have hdist := toFixed1R_dist (Real.sqrt 160100)
  rw [hsf] at hs
  rw [abs_le] at hs hdist
  have hs_hi : s ≤ 400.3 := by linarith [hs.2, hdist.2]
  have hs_lo : -(0.1 : ℝ) ≤ s := by linarith [hs.1, hdist.1]
  have ht2 : (0 : ℝ) ≤ t ^ 2 := sq_nonneg t
  have hrise : ((-1000 : ℚ) : ℝ) ^ 2 = 1000000 := by norm_num
  rw [hrise] at heq
  nlinarith [heq, hs_hi, hs_lo, ht2]

/-- C2 amended: for every input with `totalRise ≥ 10` (so that the clamped
rise equals the caller-supplied one), there are exact values within the
one-decimal rounding tolerance of the produced `stringerLength` and
`totalRun` fields satisfying `s² = t² + totalRise²` — namely the
pre-rounding values themselves. -/
theorem stringer_hypotenuse (totalRise : ℚ) (dR dT : Option ℚ) (ty : String)
    (ld : Option ℚ) (h : 10 ≤ totalRise) :
    ∃ s t : ℝ,
      |s - (calculateStairs totalRise dR dT ty ld).stringerLength| ≤ 1 / 20 ∧
      |t - ((calculateStairs totalRise dR dT ty ld).totalRun : ℝ)| ≤ 1 / 20 ∧
      s ^ 2 = t ^ 2 + (totalRise : ℝ) ^ 2 := by
  refine ⟨stringerRaw totalRise dR dT ty ld, (totalRunRaw totalRise dR dT ty ld : ℝ),
    ?_, ?_, ?_⟩
  · show |stringerRaw totalRise dR dT ty ld -
      toFixed1R (stringerRaw totalRise dR dT ty ld)| ≤ 1 / 20
    rw [abs_sub_comm]
    exact toFixed1R_dist _
  · show |(totalRunRaw totalRise dR dT ty ld : ℝ) -
      ((toFixed1 (totalRunRaw totalRise dR dT ty ld) : ℚ) : ℝ)| ≤ 1 / 20
    rw [abs_sub_comm]
    have hq := toFixed1_dist (totalRunRaw totalRise dR dT ty ld)
    have : ((|toFixed1 (totalRunRaw totalRise dR dT ty ld) -
        totalRunRaw totalRise dR dT ty ld| : ℚ) : ℝ) ≤ ((1 / 20 : ℚ) : ℝ) := by
      exact_mod_cast hq
    push_cast at this
    exact this
  · unfold stringerRaw
    rw [Real.sq_sqrt (by positivity)]
    have heff : effRise totalRise = totalRise := max_eq_right h
    rw [heff]

/-- Witness for the amended C2 at the scenario-A input. -/
theorem stringer_hypotenuse_witness :
    (10 : ℚ) ≤ 2700 ∧
    (∃ s t : ℝ,
      |s - (calculateStairs 2700 (some 170) (some 280) "straight" none).stringerLength| ≤ 1 / 20 ∧
      |t - ((calculateStairs 2700 (some 170) (some 280) "straight" none).totalRun : ℝ)| ≤ 1 / 20 ∧
      s ^ 2 = t ^ 2 + ((2700 : ℚ) : ℝ) ^ 2) :=
  ⟨by norm_num,
    stringer_hypotenuse 2700 (some 170) (some 280) "straight" none (by norm_num)⟩
